import Mathlib

/-!
Formal model of the scientific-fact-checker browser extension.

The development shallowly embeds the three source files of the repository:

* `background.js` — the `chrome.runtime.onMessage` listener, `checkFact`
  (outbound HTTP request construction and extraction of the nested reply),
  and `storeLogEntry` (read-modify-write append to the persisted log);
* `popup.js` — `autoCheck`, which trims the input and dispatches a
  `FACT_CHECK` message only for non-empty claims;
* the export module — `exportLogs`, which reads the persisted log and either
  raises a user notice or requests a download of the pretty-printed JSON.

Host-environment facilities are modelled explicitly: the network is an
oracle value (`FetchOutcome`) describing how `fetch`/`response.json()`
settled, `JSON.parse` of the endpoint's text payload is an oracle function
`String → Option Json` universally quantified in the theorems, and
`new Date().toISOString()` is a string parameter. Engine-generated messages
of internally thrown `TypeError`/`SyntaxError` are abstracted as `none`
(the code only ever prefixes them with a fixed diagnostic). JavaScript
property access on `null`/`undefined` throws, on other non-objects it
yields `undefined`; both behaviours are modelled (the exotic corners of
string indexing, numeric-keyed object indexing, and `ToString` coercion of
a non-string `text` payload, all of which the endpoint contract excludes,
are modelled as extraction failure). Objects are association lists whose
keys are distinct, as `JSON.parse` guarantees.
-/

/-- JSON values, the data interchanged with the endpoint and the storage. -/
inductive Json where
  | null : Json
  | bool (b : Bool) : Json
  | num (n : Int) : Json
  | str (s : String) : Json
  | arr (elems : List Json) : Json
  | obj (fields : List (String × Json)) : Json

/-- Property lookup that cannot throw: on an object, the first field with
the given key; on any non-object, `none` (JavaScript `undefined`). Callers
that would throw on `null` handle that case themselves. -/
def Json.getField? : Json → String → Option Json
  | .obj fields, k => (fields.find? (fun p => p.fst == k)).map (fun p => p.snd)
  | _, _ => none

/-- One persisted record of a past evaluation, as built by `storeLogEntry`.
`verdict` and `explanation` are copied from the endpoint's parsed payload by
plain property access, so they may be absent (`undefined`), hence `Option`. -/
structure LogEntry where
  timestamp : String
  claim : String
  verdict : Option Json
  explanation : Option Json
  status : String

/-- The `chrome.storage.local` area used by the extension: the slot
`lastClaim` written by the context-menu handler and the slot `factLogs`
holding the ordered log. A slot that was never written reads as `none`. -/
structure Storage where
  lastClaim : Option String
  factLogs : Option (List LogEntry)

/-- Reading the log: `data.factLogs || []` in the source. -/
def getLogs (σ : Storage) : List LogEntry :=
  σ.factLogs.getD []

/-- Shape check for the 24-character string produced by
`Date.prototype.toISOString`: `YYYY-MM-DDTHH:MM:SS.mmmZ`. -/
def isIso8601 (s : String) : Bool :=
  match s.toList with
  | [y1, y2, y3, y4, '-', m1, m2, '-', d1, d2, 'T',
     h1, h2, ':', n1, n2, ':', s1, s2, '.', f1, f2, f3, 'Z'] =>
      [y1, y2, y3, y4, m1, m2, d1, d2, h1, h2, n1, n2, s1, s2, f1, f2, f3].all Char.isDigit
  | _ => false

/-- The credential embedded in `checkFact`. -/
def apiKey : String := "YOUR_KEY"

/-- The fixed part of the instruction template before the interpolated claim. -/
def promptHead : String :=
  "\n      Determine if the following claim is TRUE, FALSE, or UNCERTAIN.\n      Respond strictly in JSON format like:\n      \x7b\n        \"verdict\": \"...\",\n        \"explanation\": \"...\"\n      \x7d\n\n      Claim: "

/-- The fixed part of the instruction template after the interpolated claim. -/
def promptTail : String := "\n      "

/-- The template literal passed as `input`, with the claim interpolated. -/
def buildPrompt (claim : String) : String :=
  promptHead ++ claim ++ promptTail

/-- The outbound HTTP request as assembled by `checkFact`'s `fetch` call. -/
structure HttpRequest where
  url : String
  method : String
  contentType : String
  authorization : String
  body : Json

/-- The single request `checkFact` sends for a claim. -/
def factCheckRequest (claim : String) : HttpRequest :=
  { url := "https://api.yourAI.com/v1/responses"
    method := "POST"
    contentType := "application/json"
    authorization := "Bearer " ++ apiKey
    body := Json.obj [("model", Json.str "1.0"),
                      ("input", Json.str (buildPrompt claim))] }

/-- How the network round trip settled, from `checkFact`'s point of view:
the `fetch` promise rejected (transport failure), `response.json()`
rejected (malformed JSON body), or a body arrived and parsed, carrying the
HTTP status code of the response. Messages of the rejection errors are
carried as `Option String` (`none` when the error has no usable message). -/
inductive FetchOutcome where
  | netError (msg : Option String)
  | malformedBody (msg : Option String)
  | body (status : Nat) (data : Json)

/-- JavaScript property read in the extraction chain: reading a property of
`undefined` or `null` throws (`Except.error`), reading a missing property
of anything else yields `undefined` (`Option.none`). -/
def jsMember : Option Json → String → Except Unit (Option Json)
  | none, _ => .error ()
  | some .null, _ => .error ()
  | some (.obj fields), k =>
      .ok ((fields.find? (fun p => p.fst == k)).map (fun p => p.snd))
  | some _, _ => .ok none

/-- JavaScript index read in the extraction chain: indexing `undefined` or
`null` throws, indexing an array yields its element (or `undefined` past
the end), indexing anything else is modelled as `undefined`. -/
def jsIndex : Option Json → Nat → Except Unit (Option Json)
  | none, _ => .error ()
  | some .null, _ => .error ()
  | some (.arr elems), i => .ok (elems.get? i)
  | some _, _ => .ok none

/-- The chained access `data.output[0].content[0].text` from `checkFact`. -/
def extractText (data : Json) : Except Unit (Option Json) := do
  let o ← jsMember (some data) "output"
  let o0 ← jsIndex o 0
  let c ← jsMember o0 "content"
  let c0 ← jsIndex c 0
  jsMember c0 "text"

/-- The value `checkFact` settles with, given the `JSON.parse` oracle `p`
and the network outcome: the parsed text payload on success, or the thrown
error's message on any rejection. The HTTP status of a delivered response
is never examined (the source never reads `response.ok` or
`response.status`). -/
def checkFactCore (p : String → Option Json) (net : FetchOutcome) :
    Except (Option String) Json :=
  match net with
  | .netError m => .error m
  | .malformedBody m => .error m
  | .body _ data =>
    match extractText data with
    | .error _ => .error none
    | .ok none => .error none
    | .ok (some (.str s)) =>
      match p s with
      | some v => .ok v
      | none => .error none
    | .ok (some _) => .error none

/-- `checkFact claim`: the request it sends and the value it settles with. -/
def checkFact (p : String → Option Json) (claim : String) (net : FetchOutcome) :
    HttpRequest × Except (Option String) Json :=
  (factCheckRequest claim, checkFactCore p net)

/-- The message `error?.message || "Unknown error."`: an absent or empty
message is replaced by the fixed fallback. -/
def errMessage : Option String → String
  | some s => if s = "" then "Unknown error." else s
  | none => "Unknown error."

/-- The error result built in the listener's catch branch. -/
def errorResult (m : Option String) : Json :=
  Json.obj [("verdict", Json.str "Error"),
            ("explanation", Json.str ("Fact check failed: " ++ errMessage m))]

/-- The entry object literal built at the top of `storeLogEntry`. Accessing
`result.verdict` throws when `result` is `null`, so no entry is built then. -/
def mkLogEntry (claim : String) (result : Json) (status now : String) :
    Option LogEntry :=
  match result with
  | .null => none
  | r => some { timestamp := now
                claim := claim
                verdict := r.getField? "verdict"
                explanation := r.getField? "explanation"
                status := status }

/-- `storeLogEntry`: build the entry, read the current log, push the entry,
write the whole sequence back. `none` when building the entry threw. -/
def storeLogEntry (claim : String) (result : Json) (status now : String)
    (σ : Storage) : Option Storage :=
  (mkLogEntry claim result status now).map
    (fun e => { σ with factLogs := some (getLogs σ ++ [e]) })

/-- An incoming runtime message, `\x7b type, claim \x7d` in the source. -/
structure MessageReq where
  type : String
  claim : String

/-- Observable outcome of one delivery to the background listener: the
outbound HTTP request if one was made, the argument of `sendResponse` if it
was called, and the storage state afterwards. -/
structure ListenerOutcome where
  request : Option HttpRequest
  response : Option Json
  storage : Storage

/-- The `chrome.runtime.onMessage` listener. For a `FACT_CHECK` message it
runs `checkFact`; on fulfilment it stores a success entry and responds with
the result — unless storing threw (`null` result), in which case the catch
branch takes over; on rejection the catch branch stores an error entry and
responds with the error result. Any other message type does nothing. -/
def onMessage (p : String → Option Json) (msg : MessageReq)
    (net : FetchOutcome) (now : String) (σ : Storage) : ListenerOutcome :=
  if msg.type = "FACT_CHECK" then
    match checkFactCore p net with
    | .ok result =>
      match storeLogEntry msg.claim result "success" now σ with
      | some σ' =>
          { request := some (factCheckRequest msg.claim)
            response := some result
            storage := σ' }
      | none =>
          let er := errorResult none
          { request := some (factCheckRequest msg.claim)
            response := some er
            storage := (storeLogEntry msg.claim er "error" now σ).getD σ }
    | .error m =>
        let er := errorResult m
        { request := some (factCheckRequest msg.claim)
          response := some er
          storage := (storeLogEntry msg.claim er "error" now σ).getD σ }
  else
    { request := none, response := none, storage := σ }

/-- The characters `String.prototype.trim` strips: ECMAScript WhiteSpace
and LineTerminator code points. -/
def isJsWhitespace (c : Char) : Bool :=
  let n := c.toNat
  (decide (9 ≤ n) && decide (n ≤ 13)) || decide (n = 32) || decide (n = 160)
    || decide (n = 5760) || (decide (8192 ≤ n) && decide (n ≤ 8202))
    || decide (n = 8232) || decide (n = 8233) || decide (n = 8239)
    || decide (n = 8287) || decide (n = 12288) || decide (n = 65279)

/-- `String.prototype.trim`: strip leading and trailing whitespace. -/
def jsTrim (s : String) : String :=
  String.mk (((s.data.dropWhile isJsWhitespace).reverse.dropWhile
    isJsWhitespace).reverse)

/-- `autoCheck` from the popup: trim the input; an empty result aborts,
otherwise a `FACT_CHECK` message with the trimmed claim is dispatched. -/
def autoCheck (inputValue : String) : Option MessageReq :=
  let claim := jsTrim inputValue
  if claim = "" then none
  else some { type := "FACT_CHECK", claim := claim }

/-- The popup check pipeline: the message `autoCheck` sends (if any) and
what the background listener then does with it. -/
def popupCheck (p : String → Option Json) (inputValue : String)
    (net : FetchOutcome) (now : String) (σ : Storage) :
    Option MessageReq × ListenerOutcome :=
  match autoCheck inputValue with
  | none => (none, { request := none, response := none, storage := σ })
  | some msg => (some msg, onMessage p msg net now σ)

/-- One hexadecimal digit, lowercase, as `JSON.stringify` emits in escapes. -/
def hexDigit (n : Nat) : Char :=
  if n < 10 then Char.ofNat (48 + n) else Char.ofNat (87 + n)

/-- Escaping of one character inside a JSON string literal, following the
`QuoteJSONString` algorithm used by `JSON.stringify`. -/
def escapeChar (c : Char) : String :=
  if c = '"' then "\\\""
  else if c = '\\' then "\\\\"
  else if c = '\x08' then "\\b"
  else if c = '\x09' then "\\t"
  else if c = '\x0a' then "\\n"
  else if c = '\x0c' then "\\f"
  else if c = '\x0d' then "\\r"
  else if c.toNat < 32 then
    "\\u00" ++ String.mk [hexDigit (c.toNat / 16), hexDigit (c.toNat % 16)]
  else String.singleton c

/-- A JSON string literal: quotes around the escaped characters. -/
def quoteString (s : String) : String :=
  "\"" ++ String.join (s.toList.map escapeChar) ++ "\""

/-- `gap * d` spaces: the indentation at nesting depth `d` when
`JSON.stringify` is called with the number `gap` as its third argument. -/
def indentOf (gap d : Nat) : String :=
  String.mk (List.replicate (gap * d) ' ')

mutual

/-- Rendering of a JSON value by `JSON.stringify(·, null, gap)` at nesting
depth `d` (the top-level call has `d = 0`). -/
def renderJson (gap d : Nat) : Json → String
  | .null => "null"
  | .bool true => "true"
  | .bool false => "false"
  | .num n => toString n
  | .str s => quoteString s
  | .arr [] => "[]"
  | .arr (x :: xs) =>
      "[\n" ++
      String.intercalate ",\n"
        ((renderList gap (d + 1) (x :: xs)).map
          (fun item => indentOf gap (d + 1) ++ item)) ++
      "\n" ++ indentOf gap d ++ "]"
  | .obj [] => "\x7b\x7d"
  | .obj (f :: fs) =>
      "\x7b\n" ++
      String.intercalate ",\n"
        ((renderFields gap (d + 1) (f :: fs)).map
          (fun item => indentOf gap (d + 1) ++ item)) ++
      "\n" ++ indentOf gap d ++ "\x7d"

/-- The rendered elements of an array, in order. -/
def renderList (gap d : Nat) : List Json → List String
  | [] => []
  | x :: xs => renderJson gap d x :: renderList gap d xs

/-- The rendered members of an object, in order. -/
def renderFields (gap d : Nat) : List (String × Json) → List String
  | [] => []
  | (k, v) :: fs =>
      (quoteString k ++ ": " ++ renderJson gap d v) :: renderFields gap d fs

end

/-- The JSON object `JSON.stringify` produces for one stored entry:
members in insertion order; a member whose value is `undefined`
(an absent `verdict` or `explanation`) is omitted. -/
def entryToJson (e : LogEntry) : Json :=
  Json.obj
    ([("timestamp", Json.str e.timestamp), ("claim", Json.str e.claim)]
      ++ (match e.verdict with | some v => [("verdict", v)] | none => [])
      ++ (match e.explanation with
          | some v => [("explanation", v)] | none => [])
      ++ [("status", Json.str e.status)])

/-- The JSON array serialized by `exportLogs`: the entries in log order. -/
def logsToJson (logs : List LogEntry) : Json :=
  Json.arr (logs.map entryToJson)

/-- The argument object of `chrome.downloads.download`, with the blob's
content in place of the object URL that wraps it. -/
structure DownloadRequest where
  content : String
  filename : String
  conflictAction : String

/-- What `exportLogs` does: raise a user-visible notice, or request a
download. -/
inductive ExportOutcome where
  | notice (msg : String)
  | download (req : DownloadRequest)

/-- `exportLogs`: read the log; alert when it is empty, otherwise serialize
it with two-space indentation and request the download. The storage state
afterwards is returned alongside (the function never writes it). -/
def exportLogs (σ : Storage) : ExportOutcome × Storage :=
  let logs := getLogs σ
  if logs.length = 0 then
    (.notice "No logs to export.", σ)
  else
    (.download { content := renderJson 2 0 (logsToJson logs)
                 filename := "fact_check_logs.json"
                 conflictAction := "uniquify" }, σ)

/-- Decoder written against the spec's description of the exported
artifact (an array of LogEntry objects): reads the three mandatory string
members back and keeps `verdict`/`explanation` as the optional raw values.
It is the spec-side inverse used to state the export round trip. -/
def specDecodeLogEntry (j : Json) : Option LogEntry :=
  match j.getField? "timestamp", j.getField? "claim", j.getField? "status" with
  | some (.str ts), some (.str cl), some (.str st) =>
      some { timestamp := ts
             claim := cl
             verdict := j.getField? "verdict"
             explanation := j.getField? "explanation"
             status := st }
  | _, _, _ => none

/-- Spec-side decoding of a list of entry objects, in order. -/
def specDecodeEntries : List Json → Option (List LogEntry)
  | [] => some []
  | x :: xs => do
      let e ← specDecodeLogEntry x
      let rest ← specDecodeEntries xs
      pure (e :: rest)

/-- Spec-side decoding of the exported artifact. -/
def specDecodeLogs : Json → Option (List LogEntry)
  | .arr elems => specDecodeEntries elems
  | _ => none

/-- The diagnostic prefix factors so that `failed` is a substring of every
explanation produced by the catch branch. -/
theorem failedInfix (x : String) :
    "Fact check failed: " ++ x = "Fact check " ++ "failed" ++ (": " ++ x) := by
  cases x with
  | mk l => rfl

/-- Decoding one encoded entry object recovers the entry. -/
theorem specDecodeLogEntry_entryToJson (e : LogEntry) :
    specDecodeLogEntry (entryToJson e) = some e := by
  obtain ⟨ts, cl, vd, ex, st⟩ := e
  cases vd <;> cases ex <;> rfl

/-- Decoding an encoded entry list recovers the list, in order. -/
theorem specDecodeEntries_map (l : List LogEntry) :
    specDecodeEntries (l.map entryToJson) = some l := by
  induction l with
  | nil => rfl
  | cons e rest ih =>
      simp [specDecodeEntries, specDecodeLogEntry_entryToJson, ih]

/-- Decoding the serialized log value recovers the log, in order. -/
theorem decode_encode (l : List LogEntry) :
    specDecodeLogs (logsToJson l) = some l := by
  simp [specDecodeLogs, logsToJson, specDecodeEntries_map]

/-- A response body with the nested shape the extraction expects, whose
text payload is `s`. -/
def respBody (s : String) : Json :=
  Json.obj [("output", Json.arr [Json.obj [("content",
    Json.arr [Json.obj [("text", Json.str s)]])]])]

/-- Storage with nothing persisted yet. -/
def emptyStorage : Storage := { lastClaim := none, factLogs := none }

/-- A parse oracle whose payload carries a `TRUE` verdict. -/
def parseToTrue : String → Option Json := fun _ =>
  some (Json.obj [("verdict", Json.str "TRUE"),
                  ("explanation", Json.str "Heliocentric model.")])

/-- A parse oracle whose payload carries a verdict outside the enumerated
set. -/
def parseToMaybe : String → Option Json := fun _ =>
  some (Json.obj [("verdict", Json.str "MAYBE"),
                  ("explanation", Json.str "Cannot tell.")])

/-- A sample persisted entry. -/
def sampleEntry : LogEntry :=
  { timestamp := "2026-01-01T00:00:00.000Z"
    claim := "c"
    verdict := some (Json.str "TRUE")
    explanation := some (Json.str "e")
    status := "success" }

/-- Storage holding one persisted entry. -/
def sampleStorage : Storage :=
  { lastClaim := none, factLogs := some [sampleEntry] }

/-- C1 (counterexample): the claim asserts that a non-2xx status makes the
dispatch fail and yields an Error verdict. The code never examines the
status: a 500 response whose body has the expected nested shape is treated
as success, and the handler responds with the parsed verdict `TRUE`, not
`Error`. -/
theorem c1_counterexample :
    (onMessage parseToTrue
        { type := "FACT_CHECK", claim := "The Earth orbits the Sun" }
        (.body 500 (respBody "payload")) "2026-01-01T00:00:00.000Z"
        emptyStorage).response
      = some (Json.obj [("verdict", Json.str "TRUE"),
                        ("explanation", Json.str "Heliocentric model.")])
    ∧ "TRUE" ≠ "Error" :=
  ⟨rfl, by decide⟩

/-- C1 (amended): whenever the dispatch fails — transport failure,
malformed JSON body, or missing fields in the nested response structure —
the listener responds with a result whose `verdict` is `Error` and whose
`explanation` contains `failed`; the response is always produced, so no
exception reaches the caller. (A non-2xx status alone is not a failure:
the status is never examined.) -/
theorem c1_dispatch_failure_normalized (p : String → Option Json)
    (c now : String) (net : FetchOutcome) (σ : Storage) (m : Option String)
    (h : checkFactCore p net = .error m) :
    (onMessage p { type := "FACT_CHECK", claim := c } net now σ).response
      = some (errorResult m)
    ∧ (errorResult m).getField? "verdict" = some (Json.str "Error")
    ∧ ∃ pre post, (errorResult m).getField? "explanation"
        = some (Json.str (pre ++ "failed" ++ post)) := by
  refine ⟨?_, rfl, ⟨"Fact check ", ": " ++ errMessage m, ?_⟩⟩
  · simp [onMessage, h]
  · have h2 : (errorResult m).getField? "explanation"
        = some (Json.str ("Fact check failed: " ++ errMessage m)) := rfl
    rw [h2, failedInfix]

/-- C1 (witness): a concrete transport failure is normalized. -/
theorem c1_witness :
    (onMessage parseToTrue { type := "FACT_CHECK", claim := "c" }
        (.netError (some "NetworkError")) "t" emptyStorage).response
      = some (errorResult (some "NetworkError"))
    ∧ (errorResult (some "NetworkError")).getField? "verdict"
        = some (Json.str "Error")
    ∧ ∃ pre post, (errorResult (some "NetworkError")).getField? "explanation"
        = some (Json.str (pre ++ "failed" ++ post)) :=
  c1_dispatch_failure_normalized parseToTrue "c" "t"
    (.netError (some "NetworkError")) emptyStorage (some "NetworkError") rfl

/-- C2 (counterexample): the endpoint's verdict string is passed through
verbatim, so a payload with verdict `MAYBE` is returned as is — the result
verdict is not confined to TRUE/FALSE/UNCERTAIN/ERROR. -/
theorem c2_counterexample :
    (onMessage parseToMaybe { type := "FACT_CHECK", claim := "c" }
        (.body 200 (respBody "payload")) "t" emptyStorage).response
      = some (Json.obj [("verdict", Json.str "MAYBE"),
                        ("explanation", Json.str "Cannot tell.")])
    ∧ "MAYBE" ≠ "TRUE" ∧ "MAYBE" ≠ "FALSE" ∧ "MAYBE" ≠ "UNCERTAIN"
    ∧ "MAYBE" ≠ "ERROR" ∧ "MAYBE" ≠ "Error" :=
  ⟨rfl, by decide, by decide, by decide, by decide, by decide⟩

/-- C2 (amended): for every non-empty claim the listener always responds
with a result: either the fixed error result (verdict `Error`, string
explanation) or the verbatim JSON value parsed from the endpoint's text
payload, whose verdict the code does not validate. -/
theorem c2_response_total (p : String → Option Json) (c now : String)
    (net : FetchOutcome) (σ : Storage) (_h : c ≠ "") :
    ∃ r, (onMessage p { type := "FACT_CHECK", claim := c } net now σ).response
        = some r
      ∧ ((r.getField? "verdict" = some (Json.str "Error")
          ∧ ∃ expl, r.getField? "explanation" = some (Json.str expl))
         ∨ checkFactCore p net = .ok r) := by
  cases hc : checkFactCore p net with
  | error m =>
      exact ⟨errorResult m, by simp [onMessage, hc], Or.inl ⟨rfl, _, rfl⟩⟩
  | ok result =>
      cases result with
      | null =>
          exact ⟨errorResult none,
            by simp [onMessage, hc, storeLogEntry, mkLogEntry],
            Or.inl ⟨rfl, _, rfl⟩⟩
      | bool b =>
          exact ⟨Json.bool b,
            by simp [onMessage, hc, storeLogEntry, mkLogEntry], Or.inr rfl⟩
      | num n =>
          exact ⟨Json.num n,
            by simp [onMessage, hc, storeLogEntry, mkLogEntry], Or.inr rfl⟩
      | str s =>
          exact ⟨Json.str s,
            by simp [onMessage, hc, storeLogEntry, mkLogEntry], Or.inr rfl⟩
      | arr elems =>
          exact ⟨Json.arr elems,
            by simp [onMessage, hc, storeLogEntry, mkLogEntry], Or.inr rfl⟩
      | obj fields =>
          exact ⟨Json.obj fields,
            by simp [onMessage, hc, storeLogEntry, mkLogEntry], Or.inr rfl⟩

/-- C2 (witness): a concrete successful evaluation responds. -/
theorem c2_witness :
    ∃ r, (onMessage parseToTrue
        { type := "FACT_CHECK", claim := "The Earth orbits the Sun" }
        (.body 200 (respBody "payload")) "t" emptyStorage).response = some r
      ∧ ((r.getField? "verdict" = some (Json.str "Error")
          ∧ ∃ expl, r.getField? "explanation" = some (Json.str expl))
         ∨ checkFactCore parseToTrue (.body 200 (respBody "payload"))
             = .ok r) :=
  c2_response_total parseToTrue "The Earth orbits the Sun" "t"
    (.body 200 (respBody "payload")) emptyStorage (by decide)

/-- C3: an input that trims to the empty string dispatches no message,
makes no network request, appends nothing and leaves storage unchanged. -/
theorem c3_blank_input_no_dispatch (p : String → Option Json) (v : String)
    (net : FetchOutcome) (now : String) (σ : Storage) (h : jsTrim v = "") :
    popupCheck p v net now σ
      = (none, { request := none, response := none, storage := σ }) := by
  simp [popupCheck, autoCheck, h]

/-- C3 (witness): a whitespace-only input is rejected before dispatch. -/
theorem c3_witness :
    popupCheck parseToTrue "  \n \t " (.netError none) "t" emptyStorage
      = (none, { request := none, response := none,
                 storage := emptyStorage }) :=
  c3_blank_input_no_dispatch parseToTrue "  \n \t " (.netError none) "t"
    emptyStorage rfl

/-- C10: a message whose type is not `FACT_CHECK` triggers no request, no
response and no storage change. -/
theorem c10_other_messages_noop (p : String → Option Json)
    (msg : MessageReq) (net : FetchOutcome) (now : String) (σ : Storage)
    (h : msg.type ≠ "FACT_CHECK") :
    onMessage p msg net now σ
      = { request := none, response := none, storage := σ } := by
  simp [onMessage, h]

/-- C10 (witness): a concrete unrelated message is ignored. -/
theorem c10_witness :
    onMessage parseToTrue { type := "PING", claim := "x" }
        (.body 200 (respBody "payload")) "t" sampleStorage
      = { request := none, response := none, storage := sampleStorage } :=
  c10_other_messages_noop parseToTrue { type := "PING", claim := "x" }
    (.body 200 (respBody "payload")) "t" sampleStorage (by decide)

/-- C4: every delivered `FACT_CHECK` evaluation appends exactly one entry:
the new log is the old log followed by one entry whose timestamp is the
current time (well-formed whenever the clock's output is), whose claim is
the evaluated claim, and whose status is `success` exactly when the
dispatch settled with a value whose fields could be read, `error`
otherwise. -/
theorem c4_one_entry_per_evaluation (p : String → Option Json) (c : String)
    (net : FetchOutcome) (now : String) (σ : Storage)
    (h : isIso8601 now = true) :
    ∃ e, getLogs (onMessage p { type := "FACT_CHECK", claim := c }
          net now σ).storage = getLogs σ ++ [e]
    ∧ e.timestamp = now
    ∧ isIso8601 e.timestamp = true
    ∧ e.claim = c
    ∧ e.status = (match checkFactCore p net with
                  | .ok .null => "error"
                  | .ok _ => "success"
                  | .error _ => "error") := by
  cases hc : checkFactCore p net with
  | error m =>
      refine ⟨⟨now, c, some (Json.str "Error"),
        some (Json.str ("Fact check failed: " ++ errMessage m)), "error"⟩,
        ?_, rfl, h, rfl, rfl⟩
      have hst : storeLogEntry c (errorResult m) "error" now σ
          = some { σ with factLogs := some (getLogs σ
              ++ [⟨now, c, some (Json.str "Error"),
                  some (Json.str ("Fact check failed: " ++ errMessage m)),
                  "error"⟩]) } := rfl
      simp [onMessage, hc, hst, getLogs]
  | ok result =>
      cases result with
      | null =>
          refine ⟨⟨now, c, some (Json.str "Error"),
            some (Json.str ("Fact check failed: " ++ errMessage none)),
            "error"⟩, ?_, rfl, h, rfl, rfl⟩
          have hs0 : storeLogEntry c Json.null "success" now σ = none := rfl
          have hst : storeLogEntry c (errorResult none) "error" now σ
              = some { σ with factLogs := some (getLogs σ
                  ++ [⟨now, c, some (Json.str "Error"),
                      some (Json.str ("Fact check failed: "
                        ++ errMessage none)), "error"⟩]) } := rfl
          simp [onMessage, hc, hs0, hst, getLogs]
      | bool b =>
          refine ⟨⟨now, c, none, none, "success"⟩, ?_, rfl, h, rfl, rfl⟩
          have hst : storeLogEntry c (Json.bool b) "success" now σ
              = some { σ with factLogs := some (getLogs σ
                  ++ [⟨now, c, none, none, "success"⟩]) } := rfl
          simp [onMessage, hc, hst, getLogs]
      | num n =>
          refine ⟨⟨now, c, none, none, "success"⟩, ?_, rfl, h, rfl, rfl⟩
          have hst : storeLogEntry c (Json.num n) "success" now σ
              = some { σ with factLogs := some (getLogs σ
                  ++ [⟨now, c, none, none, "success"⟩]) } := rfl
          simp [onMessage, hc, hst, getLogs]
      | str s =>
          refine ⟨⟨now, c, none, none, "success"⟩, ?_, rfl, h, rfl, rfl⟩
          have hst : storeLogEntry c (Json.str s) "success" now σ
              = some { σ with factLogs := some (getLogs σ
                  ++ [⟨now, c, none, none, "success"⟩]) } := rfl
          simp [onMessage, hc, hst, getLogs]
      | arr elems =>
          refine ⟨⟨now, c, none, none, "success"⟩, ?_, rfl, h, rfl, rfl⟩
          have hst : storeLogEntry c (Json.arr elems) "success" now σ
              = some { σ with factLogs := some (getLogs σ
                  ++ [⟨now, c, none, none, "success"⟩]) } := rfl
          simp [onMessage, hc, hst, getLogs]
      | obj fields =>
          refine ⟨⟨now, c, (Json.obj fields).getField? "verdict",
            (Json.obj fields).getField? "explanation", "success"⟩,
            ?_, rfl, h, rfl, rfl⟩
          have hst : storeLogEntry c (Json.obj fields) "success" now σ
              = some { σ with factLogs := some (getLogs σ
                  ++ [⟨now, c, (Json.obj fields).getField? "verdict",
                      (Json.obj fields).getField? "explanation",
                      "success"⟩]) } := rfl
          simp [onMessage, hc, hst, getLogs]

/-- C4 (witness): a concrete successful evaluation appends one entry. -/
theorem c4_witness :
    ∃ e, getLogs (onMessage parseToTrue { type := "FACT_CHECK", claim := "c" }
          (.body 200 (respBody "x")) "2026-10-11T00:00:00.000Z"
          emptyStorage).storage = getLogs emptyStorage ++ [e]
    ∧ e.timestamp = "2026-10-11T00:00:00.000Z"
    ∧ isIso8601 e.timestamp = true
    ∧ e.claim = "c"
    ∧ e.status = (match checkFactCore parseToTrue
                    (.body 200 (respBody "x")) with
                  | .ok .null => "error"
                  | .ok _ => "success"
                  | .error _ => "error") :=
  c4_one_entry_per_evaluation parseToTrue "c" (.body 200 (respBody "x"))
    "2026-10-11T00:00:00.000Z" emptyStorage (by decide)

/-- C5: exporting an empty log yields only the user notice; exporting a
non-empty log requests a download whose content is the serialized log
value, and decoding that value recovers the in-memory log exactly, order
preserved. -/
theorem c5_export_round_trip (σ : Storage) :
    (getLogs σ = [] → exportLogs σ = (.notice "No logs to export.", σ))
    ∧ (getLogs σ ≠ [] →
        ∃ d, exportLogs σ = (.download d, σ)
        ∧ d.content = renderJson 2 0 (logsToJson (getLogs σ))
        ∧ specDecodeLogs (logsToJson (getLogs σ)) = some (getLogs σ)) := by
  constructor
  · intro h
    simp [exportLogs, h]
  · intro h
    have hne : ¬ (getLogs σ).length = 0 := by
      simpa [List.length_eq_zero] using h
    refine ⟨{ content := renderJson 2 0 (logsToJson (getLogs σ)),
              filename := "fact_check_logs.json",
              conflictAction := "uniquify" }, ?_, rfl, decode_encode _⟩
    simp only [exportLogs]
    rw [if_neg hne]

/-- C5 (witness): both branches at concrete stores. -/
theorem c5_witness :
    exportLogs emptyStorage = (.notice "No logs to export.", emptyStorage)
    ∧ ∃ d, exportLogs sampleStorage = (.download d, sampleStorage)
        ∧ d.content = renderJson 2 0 (logsToJson (getLogs sampleStorage))
        ∧ specDecodeLogs (logsToJson (getLogs sampleStorage))
            = some (getLogs sampleStorage) :=
  ⟨(c5_export_round_trip emptyStorage).1 rfl,
   (c5_export_round_trip sampleStorage).2 (List.cons_ne_nil _ _)⟩

/-- C6: a completed append writes back exactly the prior sequence followed
by one new entry — prior entries keep their values and positions, and the
length grows by one. -/
theorem c6_append_only (claim : String) (result : Json) (status now : String)
    (σ σ' : Storage) (h : storeLogEntry claim result status now σ = some σ') :
    ∃ e, getLogs σ' = getLogs σ ++ [e]
    ∧ (getLogs σ').length = (getLogs σ).length + 1
    ∧ ∀ i, i < (getLogs σ).length → (getLogs σ')[i]? = (getLogs σ)[i]? := by
  rw [storeLogEntry, Option.map_eq_some'] at h
  obtain ⟨e, _, hσ'⟩ := h
  subst hσ'
  refine ⟨e, rfl, by simp [getLogs], ?_⟩
  intro i hi
  show (getLogs σ ++ [e])[i]? = (getLogs σ)[i]?
  rw [List.getElem?_append, if_pos hi]

/-- The storage that appending one success entry onto the empty store
produces. -/
def appendedStorage : Storage :=
  { lastClaim := none
    factLogs := some [⟨"t", "c", some (Json.str "TRUE"), none, "success"⟩] }

/-- C6 (witness): a concrete append onto an empty log. -/
theorem c6_witness :
    ∃ e, getLogs appendedStorage = getLogs emptyStorage ++ [e]
    ∧ (getLogs appendedStorage).length = (getLogs emptyStorage).length + 1
    ∧ ∀ i, i < (getLogs emptyStorage).length →
        (getLogs appendedStorage)[i]? = (getLogs emptyStorage)[i]? :=
  c6_append_only "c" (Json.obj [("verdict", Json.str "TRUE")]) "success" "t"
    emptyStorage appendedStorage rfl

/-- C8: for a non-empty log the export requests a download with the fixed
filename, the `uniquify` conflict-avoidance strategy, and the log rendered
with two-space indentation as content. -/
theorem c8_export_download (σ : Storage) (h : getLogs σ ≠ []) :
    ∃ d, exportLogs σ = (.download d, σ)
    ∧ d.filename = "fact_check_logs.json"
    ∧ d.conflictAction = "uniquify"
    ∧ d.content = renderJson 2 0 (logsToJson (getLogs σ)) := by
  have hne : ¬ (getLogs σ).length = 0 := by
    simpa [List.length_eq_zero] using h
  refine ⟨{ content := renderJson 2 0 (logsToJson (getLogs σ)),
            filename := "fact_check_logs.json",
            conflictAction := "uniquify" }, ?_, rfl, rfl, rfl⟩
  simp only [exportLogs]
  rw [if_neg hne]

/-- C8 (witness): the download request for a concrete one-entry log. -/
theorem c8_witness :
    ∃ d, exportLogs sampleStorage = (.download d, sampleStorage)
    ∧ d.filename = "fact_check_logs.json"
    ∧ d.conflictAction = "uniquify"
    ∧ d.content = renderJson 2 0 (logsToJson (getLogs sampleStorage)) :=
  c8_export_download sampleStorage (List.cons_ne_nil _ _)

/-- C9: export never writes storage, and its outcome depends on the
persisted state only through the `factLogs` slot. -/
theorem c9_export_read_only (σ : Storage) :
    (exportLogs σ).2 = σ
    ∧ ∀ σ', getLogs σ = getLogs σ' → (exportLogs σ).1 = (exportLogs σ').1 := by
  have view : ∀ τ : Storage, exportLogs τ =
      (if (getLogs τ).length = 0 then ExportOutcome.notice "No logs to export."
       else .download { content := renderJson 2 0 (logsToJson (getLogs τ)),
                        filename := "fact_check_logs.json",
                        conflictAction := "uniquify" }, τ) := by
    intro τ
    by_cases hh : (getLogs τ).length = 0 <;> simp [exportLogs, hh]
  constructor
  · rw [view]
  · intro σ' hg
    rw [view, view]
    simp only [hg]

/-- C9 (witness): export of an empty store is read-only and agrees with
export of a different store holding the same (empty) log. -/
theorem c9_witness :
    (exportLogs emptyStorage).2 = emptyStorage
    ∧ (exportLogs emptyStorage).1
        = (exportLogs { lastClaim := some "x", factLogs := none }).1 :=
  ⟨(c9_export_read_only emptyStorage).1,
   (c9_export_read_only emptyStorage).2
     { lastClaim := some "x", factLogs := none } rfl⟩

/-- C7: the dispatcher's single request is a POST to the fixed endpoint
whose body has exactly the members `model` and `input` (the prompt
template with the claim embedded), carries a `Bearer` authorization
header, and the result is extracted from the text member of the first
content element of the first output element and handed to `JSON.parse`. -/
theorem c7_request_shape_and_extraction (p : String → Option Json)
    (c : String) :
    (factCheckRequest c).method = "POST"
    ∧ (factCheckRequest c).url = "https://api.yourAI.com/v1/responses"
    ∧ (factCheckRequest c).body
        = Json.obj [("model", Json.str "1.0"),
                    ("input", Json.str (buildPrompt c))]
    ∧ (∃ pre post, buildPrompt c = pre ++ c ++ post)
    ∧ (factCheckRequest c).authorization = "Bearer " ++ apiKey
    ∧ (∀ net now σ,
        (onMessage p { type := "FACT_CHECK", claim := c } net now σ).request
          = some (factCheckRequest c))
    ∧ ∀ (s : String) (status : Nat) (otail ctail : List Json),
        checkFactCore p (.body status (Json.obj [("output",
            Json.arr (Json.obj [("content", Json.arr
              (Json.obj [("text", Json.str s)] :: ctail))] :: otail))]))
          = (match p s with
             | some v => Except.ok v
             | none => Except.error none) := by
  refine ⟨rfl, rfl, rfl, ⟨promptHead, promptTail, rfl⟩, rfl, ?_, ?_⟩
  · intro net now σ
    cases hc : checkFactCore p net with
    | error m => simp [onMessage, hc]
    | ok result =>
        cases hs : storeLogEntry c result "success" now σ <;>
          simp [onMessage, hc, hs]
  · intro s status otail ctail
    rfl
